import Mathlib

/-!
Verification of the Arista automation scripts.

The development shallowly embeds the two configuration-generating scripts of the
repository: `Vlan-Definitions.py` (the `create_vlans` function) and
`DR-DC-TOR-ARSW-02.py` (the configuration templates `get_base_config`,
`get_mlag_config`, `generate_port_channels` and the orchestration `deploy_config`).
Transport interactions (netmiko/serial) are modelled by an explicit event trace;
a transport stub `sendOk : Nat → Bool` says whether the i-th send call succeeds
or raises.
-/

namespace Arista

/-! ### Embedding of `src/Vlan-Definitions.py` -/

/-- Python truthiness of the `vlan_names` argument: `None` and the empty list are
falsy, a non-empty list is truthy. -/
def vlanNamesTruthy : Option (List String) → Bool
  | none => false
  | some l => !l.isEmpty

/-- The command-construction loop of `create_vlans`
(`for i, vlan_id in enumerate(vlan_ids)`): an id outside 1-4094 raises
`ValueError`; otherwise the string `vlan <id>` is built and, when `vlan_names`
is truthy, `\nname <name>` is appended to the same string before it is appended
to the command list.  `i` is the running index of `enumerate`; the names list is
only indexed after the length check of `create_vlans` has passed, so the default
of `getD` is never produced. -/
def vlanLoop (vlan_names : Option (List String)) : Nat → List Int → Except String (List String)
  | _, [] => Except.ok []
  | i, vlan_id :: rest =>
    if vlan_id < 1 ∨ 4094 < vlan_id then
      Except.error ("Invalid VLAN ID " ++ toString vlan_id ++ ": Must be 1-4094")
    else
      let nm := (vlan_names.getD []).getD i ""
      let cmd :=
        if vlanNamesTruthy vlan_names then
          "vlan " ++ toString vlan_id ++ "\n" ++ "name " ++ nm
        else
          "vlan " ++ toString vlan_id
      match vlanLoop vlan_names (i + 1) rest with
      | Except.error e => Except.error e
      | Except.ok cmds => Except.ok (cmd :: cmds)

/-- `create_vlans` up to (and excluding) the transport phase: the length
validation (`if vlan_names and len(vlan_ids) != len(vlan_names)`) followed by
the command-construction loop. -/
def create_vlans_commands (vlan_ids : List Int) (vlan_names : Option (List String)) :
    Except String (List String) :=
  if vlanNamesTruthy vlan_names && (vlan_ids.length != (vlan_names.getD []).length) then
    Except.error "vlan_ids and vlan_names must be the same length"
  else
    vlanLoop vlan_names 0 vlan_ids

/-- One transport interaction of `create_vlans`. -/
inductive Ev where
  | connect
  | sendConfigSet (cmds : List String)
  | saveConfig
  | disconnect
deriving DecidableEq

/-- `create_vlans`: when command construction raises, the exception propagates
before the `with ConnectHandler(...)` block is entered, so no transport
interaction happens; otherwise a connection is opened, the commands are sent,
the configuration is saved, and the connection is closed by the `with` block. -/
def create_vlans (vlan_ids : List Int) (vlan_names : Option (List String)) :
    Except String Unit × List Ev :=
  match create_vlans_commands vlan_ids vlan_names with
  | Except.error e => (Except.error e, [])
  | Except.ok cmds =>
      (Except.ok (), [Ev.connect, Ev.sendConfigSet cmds, Ev.saveConfig, Ev.disconnect])

/-! ### Embedding of `src/DR-DC-TOR-ARSW-02.py` -/

/-- Module-level constant `HOSTNAME`. -/
def HOSTNAME : String := "DBDR-HCI-TOR-SW-02"

/-- Module-level constant `MGMT_IP`. -/
def MGMT_IP : String := "172.16.105.11/24"

/-- Module-level constant `MLAG_PEER_IP`. -/
def MLAG_PEER_IP : String := "10.0.0.1"

/-- Module-level constant `MLAG_VLAN_IP`. -/
def MLAG_VLAN_IP : String := "10.0.0.2/30"

/-- `get_base_config`.  In the source, the list literal has no comma between the
`"exit"` that would close the `interface Management1` block and the following
`"ip domain-name Dashen.local"`; Python concatenates adjacent string literals,
so the list holds the single fused element. -/
def get_base_config : List String :=
  [ "enable",
    "configure terminal",
    "hostname " ++ HOSTNAME,
    "no aaa root",
    "username admin privilege 15 secret %TGBnhy6",
    "enable secret %TGBnhy6",
    "line console 0",
    "login local",
    "exec-timeout 10 0",
    "no history",
    "length 0",
    "transport input none",
    "exit",
    "interface Management1",
    "ip address " ++ MGMT_IP,
    "no shutdown",
    "exit" ++ "ip domain-name Dashen.local",
    "username admin privilege 15 secret %TGBnhy6",
    "ip ssh version 2",
    "crypto key generate rsa modulus 2048" ]

/-- `get_mlag_config`. -/
def get_mlag_config : List String :=
  [ "vlan 4094",
    "name MLAG-Peer",
    "trunk group MLAG-Peer",
    "exit",
    "interface Vlan4094",
    "ip address " ++ MLAG_VLAN_IP,
    "no shutdown",
    "exit",
    "interface Ethernet49-50",
    "description MLAG_PEER_LINK_MEMBER",
    "channel-group 100 mode active",
    "no shutdown",
    "exit",
    "interface Port-Channel100",
    "description MLAG_PEER_LINK",
    "switchport mode trunk",
    "mlag peer-link",
    "no shutdown",
    "exit",
    "mlag configuration",
    "domain-id DR-TOR-MLAG",
    "local-interface Vlan4094",
    "peer-address " ++ MLAG_PEER_IP,
    "peer-link Port-Channel100",
    "exit" ]

/-- The five member-interface commands of one iteration of
`generate_port_channels` (the half the source comments `Member Interface`);
`eth_port` is the value of `po - 9` computed by the loop. -/
def memberCmds (po eth_port : Int) : List String :=
  [ "interface Ethernet" ++ toString eth_port,
    "description PC_" ++ (toString po ++ "_MEMBER"),
    "channel-group " ++ (toString po ++ " mode active"),
    "no shutdown",
    "exit" ]

/-- The six port-channel interface commands of one iteration of
`generate_port_channels` (the half the source comments `Port-Channel Interface`). -/
def portChannelCmds (po : Int) : List String :=
  [ "interface Port-Channel" ++ toString po,
    "description UPLINK_PO_" ++ toString po,
    "switchport mode trunk",
    "mlag " ++ toString po,
    "no shutdown",
    "exit" ]

/-- Python's `range(lo, hi + 1)` over unbounded machine integers: the closed
interval `[lo, hi]` in increasing order. -/
def intRange (lo hi : Int) : List Int :=
  (List.range (hi + 1 - lo).toNat).map (fun i : Nat => lo + (i : Int))

/-- `generate_port_channels`: `for po in range(10, 46)`, `eth_port = po - 9`,
then `config.extend([...])` with the eleven commands of the iteration (member
block followed by port-channel block). -/
def generate_port_channels : List String :=
  (intRange 10 45).flatMap (fun po => memberCmds po (po - 9) ++ portChannelCmds po)

/-- Modelled from the spec (§4.1 `BuildPortChannelRange`): the generalisation of
`generate_port_channels` to an explicit `(start, stop, memberOffset)` triple,
with the loop body unchanged; the source hard-codes the triple `(10, 45, 9)`. -/
def BuildPortChannelRange (start stop memberOffset : Int) : List String :=
  (intRange start stop).flatMap
    (fun po => memberCmds po (po - memberOffset) ++ portChannelCmds po)

/-- `c.startsWith p`, computed on the underlying character lists; used to count
the `interface ...` commands that open an interface block. -/
def strStartsWith (c p : String) : Bool := p.data.isPrefixOf c.data

/-! ### Embedding of `deploy_config` -/

/-- One transport interaction of `deploy_config`, identified by the batch name
the spec gives the three `send_config_set` calls. -/
inductive DEv where
  | sent (batch : String)
  | failed (batch : String)
  | persist
deriving DecidableEq

/-- Outcome of a `deploy_config` run: the returned boolean, the batches fully
applied before any failure, and the transport trace. -/
structure DeployResult where
  success : Bool
  completed : List String
  trace : List DEv
deriving DecidableEq

/-- The three `send_config_set` batches of `deploy_config`, in order, under the
names the spec gives them (the source sends them anonymously). -/
def theBatches : List (String × List String) :=
  [("base", get_base_config), ("mlag", get_mlag_config),
   ("port-channels", generate_port_channels)]

/-- Sequential sending of the batches: the transport stub `sendOk` says whether
the i-th send call succeeds or raises; a raise aborts the remaining batches (the
exception propagates to the `except` handler of `deploy_config`).  Returns
(no exception raised, completed batch names, trace). -/
def applyBatches (sendOk : Nat → Bool) :
    Nat → List (String × List String) → Bool × List String × List DEv
  | _, [] => (true, [], [])
  | i, (name, _) :: rest =>
    if sendOk i then
      match applyBatches sendOk (i + 1) rest with
      | (ok, comp, tr) => (ok, name :: comp, DEv.sent name :: tr)
    else
      (false, [], [DEv.failed name])

/-- `deploy_config`: sends the three batches in order; when all of them succeed
it sends the persist command `write memory` (call index 3).  Any exception is
caught by the `except` block and the function returns `False`; otherwise it
returns `True`. -/
def deploy_config (sendOk : Nat → Bool) : DeployResult :=
  match applyBatches sendOk 0 theBatches with
  | (true, comp, tr) =>
    if sendOk 3 then ⟨true, comp, tr ++ [DEv.persist]⟩
    else ⟨false, comp, tr ++ [DEv.persist]⟩
  | (false, comp, tr) => ⟨false, comp, tr⟩

/-- Splits a character list at every occurrence of `sep` (structural version of
Python's `str.split`, used to read back the lines of a multi-line command). -/
def splitOnChar (sep : Char) : List Char → List (List Char)
  | [] => [[]]
  | c :: rest =>
    match splitOnChar sep rest with
    | [] => [[c]]
    | h :: t => if c = sep then [] :: h :: t else (c :: h) :: t

/-- The lines of a string, split at every newline character. -/
def splitLines (s : String) : List String := (splitOnChar '\n' s.data).map String.mk

/-! ### Helper lemmas -/

lemma isPrefixOf_append_of_isPrefixOf (q : List Char) :
    ∀ (p t : List Char), q.isPrefixOf p = true → q.isPrefixOf (p ++ t) = true := by
  induction q with
  | nil =>
    intro p t _
    cases p ++ t with
    | nil => rfl
    | cons x xs => rfl
  | cons a as ih =>
    intro p t h
    cases p with
    | nil => simp [List.isPrefixOf] at h
    | cons b bs =>
      simp only [List.isPrefixOf, Bool.and_eq_true] at h
      simp only [List.cons_append, List.isPrefixOf, Bool.and_eq_true]
      exact ⟨h.1, ih bs t h.2⟩

lemma isPrefixOf_false_of_head (a b : Char) (as bs : List Char) (h : (a == b) = false) :
    (a :: as).isPrefixOf (b :: bs) = false := by
  simp [List.isPrefixOf, h]

lemma strStartsWith_append_left (q p t : String) (h : strStartsWith p q = true) :
    strStartsWith (p ++ t) q = true := by
  unfold strStartsWith at h ⊢
  rw [String.data_append]
  exact isPrefixOf_append_of_isPrefixOf _ _ _ h

lemma strStartsWith_interface_false (p t : String) (c : Char) (cs : List Char)
    (hp : p.data = c :: cs) (hc : (('i' : Char) == c) = false) :
    strStartsWith (p ++ t) "interface" = false := by
  unfold strStartsWith
  rw [String.data_append, hp]
  have hi : "interface".data = 'i' :: "nterface".data := rfl
  rw [hi, List.cons_append]
  exact isPrefixOf_false_of_head _ _ _ _ hc

lemma countP_interface_block (po eth_port : Int) :
    (memberCmds po eth_port ++ portChannelCmds po).countP
      (fun c => strStartsWith c "interface") = 2 := by
  have t1 : strStartsWith ("interface Ethernet" ++ toString eth_port) "interface" = true :=
    strStartsWith_append_left "interface" "interface Ethernet" _ (by decide)
  have t2 : strStartsWith ("interface Port-Channel" ++ toString po) "interface" = true :=
    strStartsWith_append_left "interface" "interface Port-Channel" _ (by decide)
  have f1 : strStartsWith ("description PC_" ++ (toString po ++ "_MEMBER")) "interface"
      = false :=
    strStartsWith_interface_false "description PC_" _ 'd' "escription PC_".data rfl (by decide)
  have f2 : strStartsWith ("channel-group " ++ (toString po ++ " mode active")) "interface"
      = false :=
    strStartsWith_interface_false "channel-group " _ 'c' "hannel-group ".data rfl (by decide)
  have f3 : strStartsWith ("description UPLINK_PO_" ++ toString po) "interface" = false :=
    strStartsWith_interface_false "description UPLINK_PO_" _ 'd' "escription UPLINK_PO_".data
      rfl (by decide)
  have f4 : strStartsWith ("mlag " ++ toString po) "interface" = false :=
    strStartsWith_interface_false "mlag " _ 'm' "lag ".data rfl (by decide)
  have f5 : strStartsWith "no shutdown" "interface" = false := by decide
  have f6 : strStartsWith "exit" "interface" = false := by decide
  have f7 : strStartsWith "switchport mode trunk" "interface" = false := by decide
  simp [memberCmds, portChannelCmds, List.countP_append, List.countP_cons,
    t1, t2, f1, f2, f3, f4, f5, f6, f7]

lemma countP_flatMap_const {α : Type} (p : String → Bool) (f : α → List String) (k : Nat)
    (hf : ∀ a, (f a).countP p = k) : ∀ l : List α, (l.flatMap f).countP p = k * l.length
  | [] => by simp
  | a :: as => by
    rw [List.flatMap_cons, List.countP_append, hf, countP_flatMap_const p f k hf as,
      List.length_cons, Nat.mul_succ]
    exact Nat.add_comm _ _

lemma length_intRange (lo hi : Int) : (intRange lo hi).length = (hi + 1 - lo).toNat := by
  rw [intRange, List.length_map, List.length_range]

lemma mem_intRange {lo hi po : Int} (h1 : lo ≤ po) (h2 : po ≤ hi) : po ∈ intRange lo hi := by
  have hn : (po - lo).toNat < (hi + 1 - lo).toNat := by omega
  have he : lo + ((po - lo).toNat : Int) = po := by omega
  unfold intRange
  exact List.mem_map.mpr ⟨(po - lo).toNat, List.mem_range.mpr hn, he⟩

lemma flatMap_contains_block {α β : Type} (f : α → List β) {a : α} {l : List α} (h : a ∈ l) :
    f a <:+: l.flatMap f := by
  induction l with
  | nil => simp at h
  | cons b bs ih =>
    rw [List.flatMap_cons]
    rcases List.mem_cons.mp h with heq | hmem
    · subst heq
      exact (List.prefix_append _ _).isInfix
    · exact (ih hmem).trans (List.suffix_append _ _).isInfix

/-! ### Claim theorems -/

/-- C2: for every triple `(start, stop, memberOffset)` with `start ≤ stop`, the
port-channel range builder emits exactly `2 * (stop - start + 1)` interface
blocks (commands opening an interface), and for each channel id `po` in the
range the member interface it emits is `Ethernet (po - memberOffset)`, bound to
channel-group `po` in the same contiguous member block; `generate_port_channels`
is exactly the instance at the triple `(10, 45, 9)` hard-coded in the source. -/
theorem build_port_channel_range_count_and_mapping
    (start stop memberOffset : Int) (h : start ≤ stop) :
    ((BuildPortChannelRange start stop memberOffset).countP
        (fun c => strStartsWith c "interface") : Int) = 2 * (stop - start + 1)
    ∧ (∀ po : Int, start ≤ po → po ≤ stop →
        ["interface Ethernet" ++ toString (po - memberOffset),
         "description PC_" ++ (toString po ++ "_MEMBER"),
         "channel-group " ++ (toString po ++ " mode active")]
          <:+: BuildPortChannelRange start stop memberOffset)
    ∧ generate_port_channels = BuildPortChannelRange 10 45 9 := by
  refine ⟨?_, ?_, rfl⟩
  · have hc := countP_flatMap_const (fun c => strStartsWith c "interface")
      (fun po => memberCmds po (po - memberOffset) ++ portChannelCmds po) 2
      (fun po => countP_interface_block po (po - memberOffset)) (intRange start stop)
    unfold BuildPortChannelRange
    rw [hc, length_intRange]
    omega
  · intro po hp1 hp2
    have hblock : memberCmds po (po - memberOffset) ++ portChannelCmds po
        <:+: BuildPortChannelRange start stop memberOffset := by
      unfold BuildPortChannelRange
      exact flatMap_contains_block
        (fun po => memberCmds po (po - memberOffset) ++ portChannelCmds po)
        (mem_intRange hp1 hp2)
    refine List.IsInfix.trans (List.IsPrefix.isInfix ?_) hblock
    exact ⟨["no shutdown", "exit"] ++ portChannelCmds po, rfl⟩

/-- Witness for C2, at the hard-coded triple `(10, 45, 9)` and channel id 10. -/
theorem build_port_channel_range_count_and_mapping_witness :
    (10 : Int) ≤ 45
    ∧ ((BuildPortChannelRange 10 45 9).countP
        (fun c => strStartsWith c "interface") : Int) = 2 * (45 - 10 + 1)
    ∧ ["interface Ethernet" ++ toString ((10 : Int) - 9),
       "description PC_" ++ (toString (10 : Int) ++ "_MEMBER"),
       "channel-group " ++ (toString (10 : Int) ++ " mode active")]
        <:+: BuildPortChannelRange 10 45 9 := by
  refine ⟨by decide, ?_, ?_⟩
  · exact (build_port_channel_range_count_and_mapping 10 45 9 (by decide)).1
  · exact (build_port_channel_range_count_and_mapping 10 45 9 (by decide)).2.1 10
      (by decide) (by decide)

/-- C8: for every channel id `po` covered by `generate_port_channels`, the five
member-interface commands for `po` immediately followed by the six port-channel
interface commands for `po` occur contiguously in the output, and the whole
output is the per-iteration concatenation of such pairs (not "all members then
all port-channels"). -/
theorem generate_port_channels_blocks_contiguous :
    (∀ po : Int, 10 ≤ po → po ≤ 45 →
      memberCmds po (po - 9) ++ portChannelCmds po <:+: generate_port_channels)
    ∧ generate_port_channels
        = (intRange 10 45).flatMap (fun po => memberCmds po (po - 9) ++ portChannelCmds po) := by
  refine ⟨?_, rfl⟩
  intro po h1 h2
  unfold generate_port_channels
  exact flatMap_contains_block (fun po => memberCmds po (po - 9) ++ portChannelCmds po)
    (mem_intRange h1 h2)

/-- Witness for C8 at channel id 10. -/
theorem generate_port_channels_blocks_contiguous_witness :
    memberCmds 10 (10 - 9) ++ portChannelCmds 10 <:+: generate_port_channels :=
  generate_port_channels_blocks_contiguous.1 10 (by decide) (by decide)

/-- C7: in `get_mlag_config`, the declaration `interface Port-Channel100` occurs
strictly before the only command referencing the port-channel by name in the
MLAG domain block (`peer-link Port-Channel100`), and the declaration
`interface Vlan4094` occurs strictly before the only `local-interface Vlan4094`
reference. -/
theorem mlag_config_declares_before_reference :
    List.indexOf "interface Port-Channel100" get_mlag_config
        < List.indexOf "peer-link Port-Channel100" get_mlag_config
    ∧ List.count "peer-link Port-Channel100" get_mlag_config = 1
    ∧ List.indexOf "interface Vlan4094" get_mlag_config
        < List.indexOf "local-interface Vlan4094" get_mlag_config
    ∧ List.count "local-interface Vlan4094" get_mlag_config = 1 := by
  refine ⟨by decide, by decide, by decide, by decide⟩

/-- C10: the base-configuration batch contains exactly one element equal to the
fused string `exitip domain-name Dashen.local`, no standalone command
`ip domain-name Dashen.local`, and exactly one standalone `exit` — which sits
before the `interface Management1` command, so no standalone `exit` closes the
management-interface block. -/
theorem base_config_fused_exit_command :
    List.count ("exit" ++ "ip domain-name Dashen.local") get_base_config = 1
    ∧ "ip domain-name Dashen.local" ∉ get_base_config
    ∧ List.count "exit" get_base_config = 1
    ∧ List.indexOf "exit" get_base_config
        < List.indexOf "interface Management1" get_base_config := by
  refine ⟨by decide, by decide, by decide, by decide⟩

/-- C1 fails on the code: for ids `[10, 20, 30]` and names
`["MGMT", "VOICE", "DATA"]` the loop produces three command strings, each a
`vlan` line with the `name` line appended after a newline — not six separate
command strings. -/
theorem create_vlans_joins_name_into_one_string :
    create_vlans_commands [10, 20, 30] (some ["MGMT", "VOICE", "DATA"])
      = Except.ok ["vlan 10\nname MGMT", "vlan 20\nname VOICE", "vlan 30\nname DATA"]
    ∧ (["vlan 10\nname MGMT", "vlan 20\nname VOICE", "vlan 30\nname DATA"] : List String)
      ≠ ["vlan 10", "name MGMT", "vlan 20", "name VOICE", "vlan 30", "name DATA"]
    ∧ (["vlan 10\nname MGMT", "vlan 20\nname VOICE", "vlan 30\nname DATA"]
        : List String).length ≠ 6 :=
  ⟨rfl, by decide, by decide⟩

/-- C1 (amended): for ids `[10, 20, 30]` and names `["MGMT", "VOICE", "DATA"]`
the loop produces exactly three command strings, `vlan 10\nname MGMT`,
`vlan 20\nname VOICE`, `vlan 30\nname DATA`, in that order; splitting each at
newlines yields the six lines `vlan 10`, `name MGMT`, `vlan 20`, `name VOICE`,
`vlan 30`, `name DATA`, in that order. -/
theorem create_vlans_three_commands_six_lines :
    create_vlans_commands [10, 20, 30] (some ["MGMT", "VOICE", "DATA"])
      = Except.ok ["vlan 10\nname MGMT", "vlan 20\nname VOICE", "vlan 30\nname DATA"]
    ∧ ["vlan 10\nname MGMT", "vlan 20\nname VOICE", "vlan 30\nname DATA"].flatMap splitLines
      = ["vlan 10", "name MGMT", "vlan 20", "name VOICE", "vlan 30", "name DATA"] :=
  ⟨rfl, rfl⟩

lemma vlanLoop_error_of_invalid (vlan_names : Option (List String)) :
    ∀ (vlan_ids : List Int) (i : Nat), (∃ v ∈ vlan_ids, v < 1 ∨ 4094 < v) →
      ∃ msg, vlanLoop vlan_names i vlan_ids = Except.error msg
  | [], _, h => by simp at h
  | v :: rest, i, h => by
    by_cases hv : v < 1 ∨ 4094 < v
    · exact ⟨"Invalid VLAN ID " ++ toString v ++ ": Must be 1-4094", by simp [vlanLoop, hv]⟩
    · have hr : ∃ w ∈ rest, w < 1 ∨ 4094 < w := by
        rcases h with ⟨w, hw, hcond⟩
        rcases List.mem_cons.mp hw with heq | hmem
        · exact absurd (heq ▸ hcond) hv
        · exact ⟨w, hmem, hcond⟩
      obtain ⟨msg, hmsg⟩ := vlanLoop_error_of_invalid vlan_names rest (i + 1) hr
      exact ⟨msg, by simp [vlanLoop, hv, hmsg]⟩

lemma create_vlans_commands_error_of_invalid (vlan_ids : List Int)
    (vlan_names : Option (List String)) (h : ∃ v ∈ vlan_ids, v < 1 ∨ 4094 < v) :
    ∃ msg, create_vlans_commands vlan_ids vlan_names = Except.error msg := by
  unfold create_vlans_commands
  by_cases hc : (vlanNamesTruthy vlan_names
      && (vlan_ids.length != (vlan_names.getD []).length)) = true
  · rw [if_pos hc]
    exact ⟨"vlan_ids and vlan_names must be the same length", rfl⟩
  · rw [if_neg hc]
    exact vlanLoop_error_of_invalid vlan_names vlan_ids 0 h

/-- C5: whenever the id list contains an id outside 1-4094, `create_vlans`
raises a `ValueError`, and it does so before any transport interaction: the
event trace is empty (no connection opened, no command sent). -/
theorem create_vlans_invalid_id_fails_fast (vlan_ids : List Int)
    (vlan_names : Option (List String)) (h : ∃ v ∈ vlan_ids, v < 1 ∨ 4094 < v) :
    (∃ msg, (create_vlans vlan_ids vlan_names).1 = Except.error msg)
    ∧ (create_vlans vlan_ids vlan_names).2 = [] := by
  obtain ⟨msg, hmsg⟩ := create_vlans_commands_error_of_invalid vlan_ids vlan_names h
  refine ⟨⟨msg, ?_⟩, ?_⟩ <;> simp [create_vlans, hmsg]

/-- Witness for C5 at the input `[5000]` of the spec. -/
theorem create_vlans_invalid_id_fails_fast_witness :
    (∃ v ∈ ([5000] : List Int), v < 1 ∨ 4094 < v)
    ∧ (∃ msg, (create_vlans [5000] none).1 = Except.error msg)
    ∧ (create_vlans [5000] none).2 = [] := by
  refine ⟨by decide, ?_, ?_⟩
  · exact (create_vlans_invalid_id_fails_fast [5000] none (by decide)).1
  · exact (create_vlans_invalid_id_fails_fast [5000] none (by decide)).2

/-- C6 fails on the code as stated: the empty list is a supplied names list
whose length differs from the id list's length, yet `create_vlans` raises no
error — the empty list is falsy, so the mismatch check is skipped and the
commands are sent. -/
theorem create_vlans_empty_names_no_mismatch_error :
    ([] : List String).length ≠ ([10, 20] : List Int).length
    ∧ (create_vlans [10, 20] (some [])).1 = Except.ok ()
    ∧ (create_vlans [10, 20] (some [])).2
        = [Ev.connect, Ev.sendConfigSet ["vlan 10", "vlan 20"], Ev.saveConfig,
           Ev.disconnect] :=
  ⟨by decide, rfl, rfl⟩

/-- C6 (amended): for every supplied non-empty names list whose length differs
from the id list's length, `create_vlans` raises the length-mismatch
`ValueError` before any transport interaction: the event trace is empty. -/
theorem create_vlans_nonempty_mismatch_fails_fast (vlan_ids : List Int)
    (names : List String) (hne : names ≠ []) (hlen : names.length ≠ vlan_ids.length) :
    (create_vlans vlan_ids (some names)).1
        = Except.error "vlan_ids and vlan_names must be the same length"
    ∧ (create_vlans vlan_ids (some names)).2 = [] := by
  have hc : (vlanNamesTruthy (some names)
      && (vlan_ids.length != ((some names : Option (List String)).getD []).length)) = true := by
    simp [vlanNamesTruthy]
    exact ⟨hne, fun heq => hlen heq.symm⟩
  have h1 : create_vlans_commands vlan_ids (some names)
      = Except.error "vlan_ids and vlan_names must be the same length" := by
    unfold create_vlans_commands
    rw [if_pos hc]
  refine ⟨?_, ?_⟩ <;> simp [create_vlans, h1]

/-- Witness for C6 (amended) at the spec's input: ids `[10, 20]`, names
`["MGMT"]`. -/
theorem create_vlans_nonempty_mismatch_fails_fast_witness :
    (["MGMT"] : List String) ≠ []
    ∧ (["MGMT"] : List String).length ≠ ([10, 20] : List Int).length
    ∧ (create_vlans [10, 20] (some ["MGMT"])).1
        = Except.error "vlan_ids and vlan_names must be the same length"
    ∧ (create_vlans [10, 20] (some ["MGMT"])).2 = [] := by
  refine ⟨by decide, by decide, ?_, ?_⟩
  · exact (create_vlans_nonempty_mismatch_fails_fast [10, 20] ["MGMT"] (by decide)
      (by decide)).1
  · exact (create_vlans_nonempty_mismatch_fails_fast [10, 20] ["MGMT"] (by decide)
      (by decide)).2

lemma vlanLoop_empty_names_ok :
    ∀ (vlan_ids : List Int), (∀ v ∈ vlan_ids, 1 ≤ v ∧ v ≤ 4094) → ∀ i : Nat,
      vlanLoop (some []) i vlan_ids
        = Except.ok (vlan_ids.map (fun v => "vlan " ++ toString v))
  | [], _, _ => rfl
  | v :: rest, h, i => by
    have hv : ¬(v < 1 ∨ 4094 < v) := by
      have := h v (List.mem_cons_self v rest)
      omega
    have hr := vlanLoop_empty_names_ok rest
      (fun w hw => h w (List.mem_cons_of_mem v hw)) (i + 1)
    simp [vlanLoop, hv, hr, vlanNamesTruthy]

/-- C9: with `vlan_names` supplied as the empty list and a non-empty valid id
list, `create_vlans` raises no length-mismatch error (the empty list is falsy,
so the check is skipped) and builds only bare `vlan <id>` commands with no
`name` command. -/
theorem create_vlans_empty_names_bare_commands (vlan_ids : List Int)
    (h : ∀ v ∈ vlan_ids, 1 ≤ v ∧ v ≤ 4094) :
    create_vlans_commands vlan_ids (some [])
      = Except.ok (vlan_ids.map (fun v => "vlan " ++ toString v)) := by
  have h0 : create_vlans_commands vlan_ids (some []) = vlanLoop (some []) 0 vlan_ids := rfl
  exact h0.trans (vlanLoop_empty_names_ok vlan_ids h 0)

/-- Witness for C9: ids `[10, 20]` with the empty names list (mismatched
lengths) build exactly `["vlan 10", "vlan 20"]` without error. -/
theorem create_vlans_empty_names_bare_commands_witness :
    (∀ v ∈ ([10, 20] : List Int), 1 ≤ v ∧ v ≤ 4094)
    ∧ create_vlans_commands [10, 20] (some [])
        = Except.ok (([10, 20] : List Int).map (fun v => "vlan " ++ toString v)) :=
  ⟨by decide, create_vlans_empty_names_bare_commands [10, 20] (by decide)⟩

/-- C3: if the transport raises while applying batch `k` (k = 0, 1 or 2) and
the earlier batches succeeded, `deploy_config` returns the failure value, the
completed batches are exactly those before the failure, the persist command is
never sent, and no batch after the failed one is sent. -/
theorem deploy_config_stops_after_failed_batch (sendOk : Nat → Bool) (k : Nat)
    (hk : k < 3) (hfail : sendOk k = false) (hprev : ∀ i, i < k → sendOk i = true) :
    (deploy_config sendOk).success = false
    ∧ (deploy_config sendOk).completed = (["base", "mlag", "port-channels"].take k)
    ∧ DEv.persist ∉ (deploy_config sendOk).trace
    ∧ ∀ name, DEv.sent name ∈ (deploy_config sendOk).trace
        → name ∈ (["base", "mlag", "port-channels"].take k) := by
  interval_cases k
  · refine ⟨?_, ?_, ?_, ?_⟩ <;>
      simp [deploy_config, applyBatches, theBatches, hfail]
  · have h0 := hprev 0 (by omega)
    refine ⟨?_, ?_, ?_, ?_⟩ <;>
      simp [deploy_config, applyBatches, theBatches, h0, hfail]
  · have h0 := hprev 0 (by omega)
    have h1 := hprev 1 (by omega)
    refine ⟨?_, ?_, ?_, ?_⟩ <;>
      simp [deploy_config, applyBatches, theBatches, h0, h1, hfail]

/-- Witness for C3: a transport stub failing on the 2nd batch gives
`success = false`, completed batches `["base"]`, and no persist command. -/
theorem deploy_config_stops_after_failed_batch_witness :
    ((1 : Nat) < 3 ∧ (fun i : Nat => i != 1) 1 = false
      ∧ (∀ i, i < 1 → (fun i : Nat => i != 1) i = true))
    ∧ (deploy_config (fun i : Nat => i != 1)).success = false
    ∧ (deploy_config (fun i : Nat => i != 1)).completed
        = (["base", "mlag", "port-channels"].take 1)
    ∧ DEv.persist ∉ (deploy_config (fun i : Nat => i != 1)).trace := by
  have h := deploy_config_stops_after_failed_batch (fun i : Nat => i != 1) 1 (by decide)
    (by decide) (by decide)
  exact ⟨⟨by decide, by decide, by decide⟩, h.1, h.2.1, h.2.2.1⟩

/-- C4 fails on the code as stated: with a transport stub on which every batch
send succeeds but the persist send (`write memory`, call index 3) raises,
`deploy_config` does not return a successful result. -/
theorem deploy_config_persist_failure_not_successful :
    (fun i : Nat => i != 3) 0 = true ∧ (fun i : Nat => i != 3) 1 = true
    ∧ (fun i : Nat => i != 3) 2 = true
    ∧ (deploy_config (fun i : Nat => i != 3)).success = false :=
  ⟨rfl, rfl, rfl, rfl⟩

/-- C4 (amended): if every batch send succeeds, all three batches are applied
in order, the persist command is sent exactly once and only after the last
batch, and the run is reported successful exactly when the persist send itself
also succeeds. -/
theorem deploy_config_all_batches_persist_once (sendOk : Nat → Bool)
    (h : ∀ i, i < 3 → sendOk i = true) :
    (deploy_config sendOk).completed = ["base", "mlag", "port-channels"]
    ∧ (deploy_config sendOk).trace
        = [DEv.sent "base", DEv.sent "mlag", DEv.sent "port-channels", DEv.persist]
    ∧ (deploy_config sendOk).success = sendOk 3 := by
  have h0 := h 0 (by omega)
  have h1 := h 1 (by omega)
  have h2 := h 2 (by omega)
  cases h3 : sendOk 3 <;>
    refine ⟨?_, ?_, ?_⟩ <;>
      simp [deploy_config, applyBatches, theBatches, h0, h1, h2, h3]

/-- Witness for C4 (amended): the all-success transport stub applies the three
batches, persists exactly once after them, and returns success. -/
theorem deploy_config_all_batches_persist_once_witness :
    (∀ i, i < 3 → (fun _ : Nat => true) i = true)
    ∧ (deploy_config (fun _ : Nat => true)).completed = ["base", "mlag", "port-channels"]
    ∧ (deploy_config (fun _ : Nat => true)).trace
        = [DEv.sent "base", DEv.sent "mlag", DEv.sent "port-channels", DEv.persist]
    ∧ (deploy_config (fun _ : Nat => true)).success = true := by
  have h := deploy_config_all_batches_persist_once (fun _ : Nat => true) (fun i _ => rfl)
  exact ⟨fun i _ => rfl, h.1, h.2.1, h.2.2⟩

end Arista
